import Mathlib

/-!
Verification of the MCU bridging layer of a Rust wrapper around a JPEG codec
engine (files compress.rs and decompress.rs). The engine itself
(jpeg_write_raw_data, jpeg_read_raw_data, ...) is an external black box; its
per-call row counts are passed in as explicit parameters. Pointers into byte
buffers are modelled as byte offsets (Option Nat: none is the null sentinel),
buffers by their lengths, and Rust panics (assert, index out of bounds,
arithmetic overflow, division by zero) by an explicit panic outcome.
-/

set_option maxHeartbeats 1000000

namespace MozJpeg

/-- Engine block size. Modelled from the spec: the constant DCTSIZE comes from
the ffi module, which is not under src/; the spec fixes the block size of the
engine to 8 (Geometry Calculator contract and the concrete scenario). -/
def DCTSIZE : Nat := 8

/-- Hard cap on rows per MCU batch (compress.rs line 26, decompress.rs line 29). -/
def MAX_MCU_HEIGHT : Nat := 16

/-- Hard cap on components per image (compress.rs line 27, decompress.rs line 30). -/
def MAX_COMPONENTS : Nat := 4

/-- Per-component data used by the bridging layer. The two sampling factors are
fields of the libjpeg component struct; row_stride and col_stride are the
derived byte layout, computed by methods of CompInfoExt in component.rs (not
under src/), so they are carried here as attributes of the component. -/
structure CompInfo where
  h_samp_factor : Nat
  v_samp_factor : Nat
  row_stride : Nat
  col_stride : Nat
deriving DecidableEq, Repr

/-- The Rust panic a given code path dies with. Each constructor stands for one
panic site in compress.rs or decompress.rs. -/
inductive PanicMsg where
  /-- panic at compress.rs 189 / assert at decompress.rs 428: Raw data not set -/
  | rawDataNotSet
  /-- panic at compress.rs 194 / decompress.rs 432: Subsampling factor too large -/
  | subsamplingTooLarge
  /-- assert at compress.rs 196: mcu_height > 0 -/
  | mcuHeightZero
  /-- panic at compress.rs 200 / decompress.rs 437: Too many components -/
  | tooManyComponents
  /-- panic at compress.rs 209: Bitmap too small -/
  | bitmapTooSmall
  /-- Rust slice or array index out of bounds -/
  | indexOutOfBounds
  /-- Rust division by zero -/
  | divideByZero
  /-- Rust subtraction overflow (debug profile) -/
  | subtractOverflow
  /-- assert at compress.rs 235: comp_height >= 8 -/
  | compHeightLt8
  /-- assert_eq at decompress.rs 461: lines_read == mcu_height -/
  | linesReadNeMcuHeight
  /-- assert at compress.rs 94: at least one h_samp_factor must be 1 -/
  | noHSampOne
  /-- assert at compress.rs 98: at least one v_samp_factor must be 1 -/
  | noVSampOne
  /-- assert_eq at compress.rs 148: raw_data_in must be 0 -/
  | rawDataInSet
  /-- assert at compress.rs 149: input_components > 0 -/
  | inputComponentsZero
  /-- assert at compress.rs 150: image_width > 0 -/
  | imageWidthZero
  /-- loop fuel ran out; unreachable, see write_raw_data_go -/
  | loopFuelExhausted
deriving DecidableEq, Repr

/-- Result of a code path that may hit a Rust panic. -/
inductive Outcome (α : Type) where
  | ok : α → Outcome α
  | panic : PanicMsg → Outcome α
deriving DecidableEq, Repr

/-- Result of a whole wrapper call: the number of engine calls made during the
run, then either a normal return value or a panic. -/
inductive RunResult (α : Type) where
  | ok : Nat → α → RunResult α
  | panic : Nat → PanicMsg → RunResult α
deriving DecidableEq, Repr

/-- Modelled from the spec: the Geometry Calculator (CompInfoExt row_stride and
col_stride in component.rs, which is not under src/). Spec 4.1:
row_stride = ceil(image_width * h_samp / max_h_samp / block_size) * block_size,
col_stride = ceil(image_height * v_samp / max_v_samp / block_size) * block_size,
exposed as stride_for(component_sampling, image_dims, max_sampling, block_size)
returning the pair (row_stride, col_stride). The chain of exact divisions
under one ceiling equals a single ceiling division by the product. -/
def stride_for (h_samp v_samp width height max_h max_v block_size : Nat) : Nat × Nat :=
  ((width * h_samp + (max_h * block_size - 1)) / (max_h * block_size) * block_size,
   (height * v_samp + (max_v * block_size - 1)) / (max_v * block_size) * block_size)

/-! ## start_compress (compress.rs 93-105) -/

/-- start_compress: assert that some component has h_samp_factor 1 and some
component has v_samp_factor 1, then make the single engine call
jpeg_start_compress. -/
def start_compress (comps : List CompInfo) : RunResult Unit :=
  if comps.any (fun c => c.h_samp_factor == 1) = false then .panic 0 .noHSampOne
  else if comps.any (fun c => c.v_samp_factor == 1) = false then .panic 0 .noVSampOne
  else .ok 1 ()

/-! ## In-memory destination buffer (compress.rs 430-475) -/

/-- The pair of fields (outbuffer, outsize) of Compress; the buffer pointer is
none when null, the vector returned by data_to_vec is modelled by its length. -/
structure MemDest where
  outbuffer : Option Nat
  outsize : Nat
deriving DecidableEq, Repr

/-- free_mem_dest (compress.rs 430-438): if outbuffer is non-null, free it and
reset both fields. -/
def free_mem_dest (s : MemDest) : MemDest :=
  match s.outbuffer with
  | none => s
  | some _ => { outbuffer := none, outsize := 0 }

/-- data_as_mut_slice (compress.rs 453-458). -/
def data_as_mut_slice (s : MemDest) : Except Unit (Nat × Nat) :=
  match s.outbuffer with
  | none => Except.error ()
  | some p => if s.outsize = 0 then Except.error () else Except.ok (p, s.outsize)

/-- data_to_vec (compress.rs 461-475). alloc_ok is the result of
Vec::try_reserve; on success the slice is copied into the vector. In either
case free_mem_dest runs before returning. -/
def data_to_vec (s : MemDest) (alloc_ok : Bool) : MemDest × Except Unit Nat :=
  match s.outbuffer with
  | none => (s, Except.error ())
  | some _ =>
    if s.outsize = 0 then (s, Except.error ())
    else (free_mem_dest s, if alloc_ok then Except.ok s.outsize else Except.error ())

/-! ## Source release on teardown (decompress.rs 574-600) -/

/-- The fields of a decompress session relevant to source release: the engine
pointer cinfo.src (none when null), the non-owning copy own_src recorded when
the adapter was installed, and a count of releases of the underlying reader. -/
structure SessionState where
  src : Option Nat
  own_src : Nat
  reader_releases : Nat
deriving DecidableEq, Repr

/-- Modelled from the spec: term_source of SourceMgr (readsrc.rs is not under
src/). Spec 4.4: terminate releases the fill buffer and detaches from the
reader; the comment in the Drop impl (decompress.rs 591-593) states that this
source manager nulls cinfo.src on termination to prevent a double free, and
the drop-count test (decompress.rs 718-737) observes exactly one reader drop. -/
def term_source (s : SessionState) : SessionState :=
  { s with src := none, reader_releases := s.reader_releases + 1 }

/-- Drop for Decompress (decompress.rs 574-600): if cinfo.src is still set and
still points at our own adapter, invoke term_source; otherwise do nothing
(jpeg_destroy_decompress touches no reader). -/
def decompress_drop (s : SessionState) : SessionState :=
  match s.src with
  | none => s
  | some p => if p = s.own_src then term_source s else s

/-- Normal completion: the engine itself calls term_source at the end of
jpeg_finish_decompress, and the Drop impl runs afterwards. -/
def session_normal_completion (s : SessionState) : SessionState :=
  decompress_drop (term_source s)

/-- Early teardown: decompression is abandoned before the end of the stream,
so only the Drop impl runs, with the source still registered. -/
def session_early_teardown (s : SessionState) : SessionState :=
  decompress_drop s

/-! ## Raw decompress chunk (decompress.rs 427-463) -/

/-- The fields of jpeg_decompress_struct read by read_raw_data_chunk. -/
structure DecompressCinfo where
  raw_data_out : Bool
  max_v_samp_factor : Nat
  comps : List CompInfo
deriving DecidableEq, Repr

/-- The 16 row-pointer slots built for one component in read_raw_data_chunk
(decompress.rs 441-456): the array starts as all null, slots below comp_height
get pointers into the newly grown region of the destination buffer, the loop
over comp_height..mcu_height re-writes nulls, and slots above mcu_height keep
their initial null. Net effect, given comp_height at most 16: slot ri holds
the offset original_len + ri * row_stride when ri < comp_height, else null. -/
def decompRowPtrs (c : CompInfo) (original_len comp_height : Nat) : List (Option Nat) :=
  (List.range MAX_MCU_HEIGHT).map fun ri =>
    if ri < comp_height then some (original_len + ri * c.row_stride) else none

/-- Per-component step of read_raw_data_chunk (decompress.rs 443-456): grow the
destination by comp_height * row_stride bytes and build the row pointers. When
comp_height exceeds the 16-slot array the Rust pointer loop dies on an index
out of bounds. Returns the slots and the new buffer length. -/
def buildDecompRows (c : CompInfo) (original_len : Nat) :
    Outcome (List (Option Nat) × Nat) :=
  let comp_height := c.v_samp_factor * DCTSIZE
  if MAX_MCU_HEIGHT < comp_height then .panic .indexOutOfBounds
  else .ok (decompRowPtrs c original_len comp_height,
    original_len + comp_height * c.row_stride)

/-- The component loop of read_raw_data_chunk over all components, pairing each
with its destination buffer length; destinations beyond the component count
are untouched. -/
def buildDecompAll : List CompInfo → List Nat → Outcome (List (List (Option Nat)) × List Nat)
  | [], dest => .ok ([], dest)
  | _ :: _, [] => .panic .indexOutOfBounds
  | c :: cs, d :: ds =>
    match buildDecompRows c d with
    | .panic m => .panic m
    | .ok (rows, new_len) =>
      match buildDecompAll cs ds with
      | .panic m => .panic m
      | .ok (rowss, lens) => .ok (rows :: rowss, new_len :: lens)

/-- read_raw_data_chunk (decompress.rs 427-463). image_dest holds the current
length of each destination vector; engine_lines is the row count the engine
call jpeg_read_raw_data returns. After the single engine call the code runs
assert_eq on engine_lines and mcu_height. -/
def read_raw_data_chunk (cinfo : DecompressCinfo) (image_dest : List Nat)
    (engine_lines : Nat) : RunResult (List Nat) :=
  if cinfo.raw_data_out = false then .panic 0 .rawDataNotSet
  else if MAX_MCU_HEIGHT < cinfo.max_v_samp_factor * DCTSIZE then
    .panic 0 .subsamplingTooLarge
  else if MAX_COMPONENTS < cinfo.comps.length ∨ image_dest.length < cinfo.comps.length then
    .panic 0 .tooManyComponents
  else
    match buildDecompAll cinfo.comps image_dest with
    | .panic m => .panic 0 m
    | .ok (_row_ptrs, new_dest) =>
      if engine_lines = cinfo.max_v_samp_factor * DCTSIZE then .ok 1 new_dest
      else .panic 1 .linesReadNeMcuHeight

/-! ## Raw compress write (compress.rs 187-260) -/

/-- The fields of jpeg_compress_struct read by write_scanlines and
write_raw_data. -/
structure CompressCinfo where
  raw_data_in : Bool
  max_v_samp_factor : Nat
  comps : List CompInfo
  next_scanline : Nat
  image_height : Nat
  image_width : Nat
  input_components : Nat
deriving DecidableEq, Repr

/-- The 16 row-pointer slots built for one component in write_raw_data
(compress.rs 221-244): initial all-null array, slots below comp_height get
pointers into the source bitmap, the rest stay or are re-set null. -/
def compRowPtrs (c : CompInfo) (comp_start_row comp_height : Nat) : List (Option Nat) :=
  (List.range MAX_MCU_HEIGHT).map fun ri =>
    if ri < comp_height then some ((comp_start_row + ri) * c.row_stride) else none

/-- Per-component step of write_raw_data (compress.rs 224-245). srcLen is the
length of this component bitmap. Panics mirror Rust: division by a zero
row_stride, the debug-profile subtraction overflow when the start row passed
the input height, the assert comp_height >= 8, and the out-of-bounds write
when comp_height exceeds the 16-slot array. The slice
image_src at start_offset..start_offset+row_stride is always in range because
comp_start_row + ri stays below input_height, so no bound check is modelled
for it (that fact is proved in the C5 theorem below). -/
def buildCompRows (c : CompInfo) (maxV srcLen start_row : Nat) :
    Outcome (List (Option Nat)) :=
  if c.row_stride = 0 then .panic .divideByZero
  else if maxV = 0 then .panic .divideByZero
  else
    let input_height := srcLen / c.row_stride
    let comp_start_row := start_row * c.v_samp_factor / maxV
    if input_height < comp_start_row then .panic .subtractOverflow
    else
      let comp_height := min (input_height - comp_start_row) (DCTSIZE * c.v_samp_factor)
      if comp_height < 8 then .panic .compHeightLt8
      else if MAX_MCU_HEIGHT < comp_height then .panic .indexOutOfBounds
      else .ok (compRowPtrs c comp_start_row comp_height)

/-- The size precondition loop of write_raw_data (compress.rs 207-216): panic
when a component bitmap is shorter than row_stride * col_stride. -/
def checkSizes : List CompInfo → List Nat → Outcome Unit
  | [], _ => .ok ()
  | _ :: _, [] => .panic .indexOutOfBounds
  | c :: cs, l :: ls =>
    if l < c.row_stride * c.col_stride then .panic .bitmapTooSmall
    else checkSizes cs ls

/-- The component loop of one write_raw_data iteration (compress.rs 224-246),
building the row-pointer batch for every component. -/
def buildCompAll (maxV start_row : Nat) :
    List CompInfo → List Nat → Outcome (List (List (Option Nat)))
  | [], _ => .ok []
  | _ :: _, [] => .panic .indexOutOfBounds
  | c :: cs, l :: ls =>
    match buildCompRows c maxV l start_row with
    | .panic m => .panic m
    | .ok rows =>
      match buildCompAll maxV start_row cs ls with
      | .panic m => .panic m
      | .ok rowss => .ok (rows :: rowss)

/-- The write loop of write_raw_data (compress.rs 218-258). engine gives the
row count returned by the k-th jpeg_write_raw_data call, which also advances
next_scanline by that count. Zero rows written returns false at once. The fuel
only bounds the recursion: every executed iteration advances next_scanline by
at least one, so fuel image_height + 1 is never exhausted. -/
def write_raw_data_go (comps : List CompInfo) (maxV : Nat) (image_src : List Nat)
    (image_height : Nat) (engine : Nat → Nat) :
    Nat → Nat → Nat → Nat → RunResult Bool
  | 0, _, _, calls => .panic calls .loopFuelExhausted
  | fuel + 1, start_row, next_scanline, calls =>
    if next_scanline < image_height then
      match buildCompAll maxV start_row comps image_src with
      | .panic m => .panic calls m
      | .ok _row_ptrs =>
        let rows_written := engine calls
        if rows_written = 0 then .ok (calls + 1) false
        else write_raw_data_go comps maxV image_src image_height engine fuel
          (start_row + rows_written) (next_scanline + rows_written) (calls + 1)
    else .ok calls true

/-- write_raw_data (compress.rs 187-260): the raw-mode guard, the mcu_height
computation with its cap and positivity checks, the component-count check, the
per-component size check, then the write loop. image_src holds the length of
each supplied component bitmap. -/
def write_raw_data (cinfo : CompressCinfo) (image_src : List Nat)
    (engine : Nat → Nat) : RunResult Bool :=
  if cinfo.raw_data_in = false then .panic 0 .rawDataNotSet
  else if MAX_MCU_HEIGHT < cinfo.max_v_samp_factor * DCTSIZE then
    .panic 0 .subsamplingTooLarge
  else if cinfo.max_v_samp_factor * DCTSIZE = 0 then .panic 0 .mcuHeightZero
  else if MAX_COMPONENTS < cinfo.comps.length ∨ image_src.length < cinfo.comps.length then
    .panic 0 .tooManyComponents
  else
    match checkSizes cinfo.comps image_src with
    | .panic m => .panic 0 m
    | .ok () =>
      write_raw_data_go cinfo.comps cinfo.max_v_samp_factor image_src
        cinfo.image_height engine (cinfo.image_height + 1)
        cinfo.next_scanline cinfo.next_scanline 0

/-! ## Non-raw compress write (compress.rs 147-176) -/

/-- Sizes of the pieces the Rust slice method chunks(sz) cuts a slice of len
bytes into: full pieces of sz bytes, the final piece shorter when len does not
divide evenly. The fuel only bounds the recursion; each step removes sz bytes,
with sz at least one, so fuel len is never exhausted. -/
def chunkSizesGo (sz : Nat) : Nat → Nat → List Nat
  | _, 0 => []
  | len, fuel + 1 =>
    if len = 0 then []
    else if len ≤ sz then [len]
    else sz :: chunkSizesGo sz (len - sz) fuel

/-- chunks(sz) on a slice of len bytes; chunks with size 0 panics in Rust and
never arises here (write_scanlines asserts width and components positive). -/
def chunkSizes (len sz : Nat) : List Nat :=
  if sz = 0 then [] else chunkSizesGo sz len len

/-- write_scanlines (compress.rs 147-176), reduced to the row counts of the
row-pointer batches it submits: after the three asserts, the source buffer is
cut into chunks of MAX_MCU_HEIGHT * byte_width bytes, and each chunk becomes
one batch of ceil(chunk / byte_width) row pointers (the inner while loop then
feeds that one batch to the engine until the engine accepts all of it). -/
def write_scanlines_batches (cinfo : CompressCinfo) (srcLen : Nat) : Outcome (List Nat) :=
  if cinfo.raw_data_in = true then .panic .rawDataInSet
  else if cinfo.input_components = 0 then .panic .inputComponentsZero
  else if cinfo.image_width = 0 then .panic .imageWidthZero
  else
    let byte_width := cinfo.image_width * cinfo.input_components
    .ok ((chunkSizes srcLen (MAX_MCU_HEIGHT * byte_width)).map
      fun chunk => (chunk + byte_width - 1) / byte_width)

/-- The batch row counts claim C6 describes, written from the words of the
claim for comparison with the code model: the buffer rows are split strictly
into batches of mcu_height = max_v_samp_factor * DCTSIZE rows, final batch
shorter when the row count does not divide evenly. -/
def claimedScanlineBatches (cinfo : CompressCinfo) (srcLen : Nat) : List Nat :=
  chunkSizes (srcLen / (cinfo.image_width * cinfo.input_components))
    (cinfo.max_v_samp_factor * DCTSIZE)

/-- Tail-only padding of a row-pointer batch: the slots below comp_height hold
pointers that stay inside the buffer region from lo to hi, and every slot from
comp_height to the end of the 16-slot array is the null sentinel. -/
def tailPadded (rows : List (Option Nat)) (comp_height row_stride lo hi : Nat) : Prop :=
  rows.length = MAX_MCU_HEIGHT ∧
  (∀ ri < comp_height, ∃ off, rows.get? ri = some (some off) ∧
    lo ≤ off ∧ off + row_stride ≤ hi) ∧
  (∀ ri, comp_height ≤ ri → ri < MAX_MCU_HEIGHT → rows.get? ri = some none)

end MozJpeg

namespace MozJpeg

/-- C9: for a 3-component image of width 45 and height 30, sampling factors
(2,2) for luma and (1,1) for each chroma component, block size 8, the
Geometry Calculator yields row_stride 48 and col_stride 32 for luma and
row_stride 24 and col_stride 16 for each chroma component. -/
theorem C9_geometry_concrete :
    stride_for 2 2 45 30 2 2 8 = (48, 32) ∧
    stride_for 1 1 45 30 2 2 8 = (24, 16) ∧
    stride_for 1 1 45 30 2 2 8 = (24, 16) := by
  decide

/-- C7: start_compress checks, before the engine start call, that some
component has h_samp_factor 1 and some component has v_samp_factor 1; when the
invariant fails it panics with zero engine calls made, and when it holds the
engine start call is the only engine call. -/
theorem C7_start_compress_invariant :
    ∀ comps : List CompInfo,
      (((¬ ∃ c ∈ comps, c.h_samp_factor = 1) ∨ (¬ ∃ c ∈ comps, c.v_samp_factor = 1)) →
        ∃ m, start_compress comps = RunResult.panic 0 m) ∧
      ((∃ c ∈ comps, c.h_samp_factor = 1) → (∃ c ∈ comps, c.v_samp_factor = 1) →
        start_compress comps = RunResult.ok 1 ()) := by
  intro comps
  constructor
  · rintro (h | h)
    · refine ⟨.noHSampOne, ?_⟩
      unfold start_compress
      rw [if_pos]
      simp only [List.any_eq_false, beq_iff_eq]
      intro c hc hceq
      exact h ⟨c, hc, hceq⟩
    · by_cases hh : comps.any (fun c => c.h_samp_factor == 1) = false
      · exact ⟨.noHSampOne, by unfold start_compress; rw [if_pos hh]⟩
      · refine ⟨.noVSampOne, ?_⟩
        unfold start_compress
        rw [if_neg hh, if_pos]
        simp only [List.any_eq_false, beq_iff_eq]
        intro c hc hceq
        exact h ⟨c, hc, hceq⟩
  · intro hh hv
    unfold start_compress
    rw [if_neg, if_neg]
    · simp only [Bool.not_eq_false, List.any_eq_true, beq_iff_eq]
      exact hv
    · simp only [Bool.not_eq_false, List.any_eq_true, beq_iff_eq]
      exact hh

/-- Witness for C7 at concrete component lists. -/
theorem C7_start_compress_invariant_witness :
    (∃ m, start_compress [⟨2, 2, 0, 0⟩] = RunResult.panic 0 m) ∧
    start_compress [⟨1, 1, 0, 0⟩] = RunResult.ok 1 () := by
  refine ⟨(C7_start_compress_invariant [⟨2, 2, 0, 0⟩]).1 (Or.inl ?_),
          (C7_start_compress_invariant [⟨1, 1, 0, 0⟩]).2 ⟨⟨1, 1, 0, 0⟩, by decide⟩
            ⟨⟨1, 1, 0, 0⟩, by decide⟩⟩
  decide

/-- C10: a data_to_vec call that gets past the null-or-empty check (returning
Ok or an allocation-failure Err) frees and resets the destination buffer, so
both accessors return Err on the resulting state; data_as_mut_slice errs
exactly on a null pointer or zero size, and data_to_vec errs exactly on a null
pointer, zero size, or failed copy allocation. -/
theorem C10_data_to_vec_frees :
    (∀ (s : MemDest) (a : Bool) (p : Nat), s.outbuffer = some p → s.outsize ≠ 0 →
      (data_to_vec s a).1.outbuffer = none ∧ (data_to_vec s a).1.outsize = 0 ∧
      (∀ b, (data_to_vec (data_to_vec s a).1 b).2 = Except.error ()) ∧
      data_as_mut_slice (data_to_vec s a).1 = Except.error ()) ∧
    (∀ s : MemDest, data_as_mut_slice s = Except.error () ↔
      (s.outbuffer = none ∨ s.outsize = 0)) ∧
    (∀ (s : MemDest) (a : Bool), (data_to_vec s a).2 = Except.error () ↔
      (s.outbuffer = none ∨ s.outsize = 0 ∨ a = false)) := by
  refine ⟨?_, ?_, ?_⟩
  · intro s a p hp hsz
    simp [data_to_vec, hp, hsz, free_mem_dest, data_as_mut_slice]
  · intro s
    cases hb : s.outbuffer with
    | none => simp [data_as_mut_slice, hb]
    | some p =>
      by_cases hsz : s.outsize = 0
      · simp [data_as_mut_slice, hb, hsz]
      · simp [data_as_mut_slice, hb, hsz]
  · intro s a
    cases hb : s.outbuffer with
    | none => simp [data_to_vec, hb]
    | some p =>
      by_cases hsz : s.outsize = 0
      · simp [data_to_vec, hb, hsz]
      · cases a <;> simp [data_to_vec, hb, hsz]

/-- Witness for C10 at a concrete buffer state. -/
theorem C10_data_to_vec_frees_witness :
    ((data_to_vec ⟨some 1, 5⟩ true).1.outbuffer = none ∧
     (data_to_vec ⟨some 1, 5⟩ true).1.outsize = 0 ∧
     (∀ b, (data_to_vec (data_to_vec ⟨some 1, 5⟩ true).1 b).2 = Except.error ()) ∧
     data_as_mut_slice (data_to_vec ⟨some 1, 5⟩ true).1 = Except.error ()) ∧
    (data_as_mut_slice (⟨some 1, 5⟩ : MemDest) = Except.error () ↔
      ((⟨some 1, 5⟩ : MemDest).outbuffer = none ∨ (⟨some 1, 5⟩ : MemDest).outsize = 0)) :=
  ⟨C10_data_to_vec_frees.1 ⟨some 1, 5⟩ true 1 rfl (by decide),
   C10_data_to_vec_frees.2.1 ⟨some 1, 5⟩⟩

/-- C8: starting from a session whose registered engine source is its own
adapter, both the normal-completion path (engine termination, then Drop) and
the early-teardown path (Drop alone) release the underlying reader exactly
once; and the Drop impl invokes no termination when the engine source is
absent or is not the adapter the session installed. -/
theorem C8_single_release :
    (∀ s : SessionState, s.src = some s.own_src → s.reader_releases = 0 →
      (session_normal_completion s).reader_releases = 1 ∧
      (session_early_teardown s).reader_releases = 1) ∧
    (∀ t : SessionState, t.src = none → session_early_teardown t = t) ∧
    (∀ (t : SessionState) (p : Nat), t.src = some p → p ≠ t.own_src →
      session_early_teardown t = t) := by
  refine ⟨?_, ?_, ?_⟩
  · intro s hsrc hrel
    constructor
    · simp [session_normal_completion, decompress_drop, term_source, hrel]
    · simp [session_early_teardown, decompress_drop, hsrc, term_source, hrel]
  · intro t ht
    simp [session_early_teardown, decompress_drop, ht]
  · intro t p hp hne
    simp [session_early_teardown, decompress_drop, hp, hne]

/-- Helper: the per-component loop of read_raw_data_chunk succeeds whenever
there is a destination for every component and every per-component batch
height fits the 16-slot array. -/
theorem buildDecompAll_isOk (comps : List CompInfo) (dest : List Nat)
    (hlen : comps.length ≤ dest.length)
    (hv : ∀ c ∈ comps, c.v_samp_factor * DCTSIZE ≤ MAX_MCU_HEIGHT) :
    ∃ out, buildDecompAll comps dest = Outcome.ok out := by
  induction comps generalizing dest with
  | nil => exact ⟨_, rfl⟩
  | cons c cs ih =>
    cases dest with
    | nil => simp at hlen
    | cons d ds =>
      have hc : c.v_samp_factor * DCTSIZE ≤ MAX_MCU_HEIGHT := hv c (by simp)
      obtain ⟨⟨rowss, lens⟩, hout⟩ := ih ds (by simpa using hlen)
        (fun x hx => hv x (by simp [hx]))
      refine ⟨⟨decompRowPtrs c d (c.v_samp_factor * DCTSIZE) :: rowss,
        (d + c.v_samp_factor * DCTSIZE * c.row_stride) :: lens⟩, ?_⟩
      unfold buildDecompAll buildDecompRows
      rw [if_neg (Nat.not_lt.2 hc), hout]

/-- Helper: whenever the preconditions of read_raw_data_chunk hold and the
engine returns a row count other than mcu_height, the assert_eq at
decompress.rs 461 fails after exactly one engine call. -/
theorem read_chunk_assert_fails (cinfo : DecompressCinfo) (dest : List Nat) (lines : Nat)
    (hraw : cinfo.raw_data_out = true)
    (hmcu : cinfo.max_v_samp_factor * DCTSIZE ≤ MAX_MCU_HEIGHT)
    (hcomp : cinfo.comps.length ≤ MAX_COMPONENTS)
    (hlen : cinfo.comps.length ≤ dest.length)
    (hv : ∀ c ∈ cinfo.comps, c.v_samp_factor * DCTSIZE ≤ MAX_MCU_HEIGHT)
    (hne : lines ≠ cinfo.max_v_samp_factor * DCTSIZE) :
    read_raw_data_chunk cinfo dest lines =
      RunResult.panic 1 PanicMsg.linesReadNeMcuHeight := by
  obtain ⟨⟨rowss, lens⟩, hout⟩ := buildDecompAll_isOk cinfo.comps dest hlen hv
  unfold read_raw_data_chunk
  rw [if_neg (by simp [hraw]), if_neg (Nat.not_lt.2 hmcu),
    if_neg (not_or.2 ⟨Nat.not_lt.2 hcomp, Nat.not_lt.2 hlen⟩), hout]
  simp [hne]

/-- Witness for C8 at concrete session states. -/
theorem C8_single_release_witness :
    ((session_normal_completion ⟨some 5, 5, 0⟩).reader_releases = 1 ∧
     (session_early_teardown ⟨some 5, 5, 0⟩).reader_releases = 1) ∧
    session_early_teardown ⟨none, 5, 3⟩ = ⟨none, 5, 3⟩ ∧
    session_early_teardown ⟨some 7, 5, 0⟩ = ⟨some 7, 5, 0⟩ :=
  ⟨C8_single_release.1 ⟨some 5, 5, 0⟩ rfl rfl,
   C8_single_release.2.1 ⟨none, 5, 3⟩ rfl,
   C8_single_release.2.2 ⟨some 7, 5, 0⟩ 7 rfl (by decide)⟩

/-- C1: in read_raw_data_chunk, when the engine read call consumes a non-zero
row count different from the full batch height mcu_height =
max_v_samp_factor * DCTSIZE, the collector panics immediately after that
single engine call. -/
theorem C1_partial_raw_read_panics :
    ∀ (cinfo : DecompressCinfo) (image_dest : List Nat) (engine_lines : Nat),
      cinfo.raw_data_out = true →
      cinfo.max_v_samp_factor * DCTSIZE ≤ MAX_MCU_HEIGHT →
      cinfo.comps.length ≤ MAX_COMPONENTS →
      cinfo.comps.length ≤ image_dest.length →
      (∀ c ∈ cinfo.comps, c.v_samp_factor * DCTSIZE ≤ MAX_MCU_HEIGHT) →
      engine_lines ≠ 0 →
      engine_lines ≠ cinfo.max_v_samp_factor * DCTSIZE →
      read_raw_data_chunk cinfo image_dest engine_lines =
        RunResult.panic 1 PanicMsg.linesReadNeMcuHeight := by
  intro cinfo dest lines hraw hmcu hcomp hlen hv _hnz hne
  exact read_chunk_assert_fails cinfo dest lines hraw hmcu hcomp hlen hv hne

/-- Witness for C1: a one-component 4:4:4 layout where the engine consumes 3
of the 8 requested rows. -/
theorem C1_partial_raw_read_panics_witness :
    read_raw_data_chunk ⟨true, 1, [⟨1, 1, 8, 16⟩]⟩ [0] 3 =
      RunResult.panic 1 PanicMsg.linesReadNeMcuHeight :=
  C1_partial_raw_read_panics ⟨true, 1, [⟨1, 1, 8, 16⟩]⟩ [0] 3 rfl (by decide)
    (by decide) (by decide) (by decide) (by decide) (by decide)

/-- C2 counterexample: the claim says a zero row count from the engine is
treated as end-of-input and does not panic; but at this concrete input the
collector panics on the assert_eq at decompress.rs 461, exactly as for any
other non-full count. -/
theorem C2_counterexample_zero_rows_panic :
    read_raw_data_chunk ⟨true, 1, [⟨1, 1, 8, 16⟩]⟩ [0] 0 =
      RunResult.panic 1 PanicMsg.linesReadNeMcuHeight := by
  decide

/-- C2 amended: a zero row count from the engine read call is not tolerated
either; whenever the batch height is positive and the chunk reaches the
engine call, zero consumed rows fails the same assert_eq and panics, so the
read loop is aborted by the panic rather than halting normally. -/
theorem C2_amended_zero_rows_panic :
    ∀ (cinfo : DecompressCinfo) (image_dest : List Nat),
      cinfo.raw_data_out = true →
      0 < cinfo.max_v_samp_factor →
      cinfo.max_v_samp_factor * DCTSIZE ≤ MAX_MCU_HEIGHT →
      cinfo.comps.length ≤ MAX_COMPONENTS →
      cinfo.comps.length ≤ image_dest.length →
      (∀ c ∈ cinfo.comps, c.v_samp_factor * DCTSIZE ≤ MAX_MCU_HEIGHT) →
      read_raw_data_chunk cinfo image_dest 0 =
        RunResult.panic 1 PanicMsg.linesReadNeMcuHeight := by
  intro cinfo dest hraw hpos hmcu hcomp hlen hv
  exact read_chunk_assert_fails cinfo dest 0 hraw hmcu hcomp hlen hv
    (Ne.symm (Nat.mul_ne_zero (Nat.pos_iff_ne_zero.1 hpos) (by decide)))

/-- Witness for the amended C2: a two-component 4:2:0 layout where the engine
consumes zero of the 16 requested rows. -/
theorem C2_amended_zero_rows_panic_witness :
    read_raw_data_chunk ⟨true, 2, [⟨2, 2, 8, 16⟩, ⟨1, 1, 4, 8⟩]⟩ [0, 0] 0 =
      RunResult.panic 1 PanicMsg.linesReadNeMcuHeight :=
  C2_amended_zero_rows_panic ⟨true, 2, [⟨2, 2, 8, 16⟩, ⟨1, 1, 4, 8⟩]⟩ [0, 0] rfl
    (by decide) (by decide) (by decide) (by decide) (by decide)

/-- C4: in both raw paths the batch height is mcu_height =
max_v_samp_factor * DCTSIZE, and a configuration whose mcu_height exceeds the
16-row cap panics with the configuration error before any engine call. -/
theorem C4_mcu_height_cap :
    (∀ (cinfo : CompressCinfo) (image_src : List Nat) (engine : Nat → Nat),
      cinfo.raw_data_in = true →
      MAX_MCU_HEIGHT < cinfo.max_v_samp_factor * DCTSIZE →
      write_raw_data cinfo image_src engine =
        RunResult.panic 0 PanicMsg.subsamplingTooLarge) ∧
    (∀ (cinfo : DecompressCinfo) (image_dest : List Nat) (engine_lines : Nat),
      cinfo.raw_data_out = true →
      MAX_MCU_HEIGHT < cinfo.max_v_samp_factor * DCTSIZE →
      read_raw_data_chunk cinfo image_dest engine_lines =
        RunResult.panic 0 PanicMsg.subsamplingTooLarge) := by
  constructor
  · intro cinfo src engine hraw hmcu
    unfold write_raw_data
    rw [if_neg (by simp [hraw]), if_pos hmcu]
  · intro cinfo dest lines hraw hmcu
    unfold read_raw_data_chunk
    rw [if_neg (by simp [hraw]), if_pos hmcu]

/-- Witness for C4: a vertical sampling factor of 3 gives mcu_height 24 and
both paths reject it with zero engine calls. -/
theorem C4_mcu_height_cap_witness :
    write_raw_data ⟨true, 3, [], 0, 0, 0, 0⟩ [] (fun _ => 0) =
      RunResult.panic 0 PanicMsg.subsamplingTooLarge ∧
    read_raw_data_chunk ⟨true, 3, []⟩ [] 0 =
      RunResult.panic 0 PanicMsg.subsamplingTooLarge :=
  ⟨C4_mcu_height_cap.1 ⟨true, 3, [], 0, 0, 0, 0⟩ [] (fun _ => 0) rfl (by decide),
   C4_mcu_height_cap.2 ⟨true, 3, []⟩ [] 0 rfl (by decide)⟩

/-- C5: every row-pointer batch either raw path builds is tail-only padded:
for the per-batch component height comp_height, slots below comp_height hold
pointers into the component buffer and all remaining slots of the array are
the null sentinel, so nulls never precede or interleave valid row pointers. -/
theorem C5_tail_only_padding :
    (∀ (c : CompInfo) (maxV srcLen start_row : Nat) (rows : List (Option Nat)),
      buildCompRows c maxV srcLen start_row = Outcome.ok rows →
      ∃ comp_height ≤ MAX_MCU_HEIGHT,
        tailPadded rows comp_height c.row_stride 0 srcLen) ∧
    (∀ (c : CompInfo) (original_len : Nat) (rows : List (Option Nat)) (new_len : Nat),
      buildDecompRows c original_len = Outcome.ok (rows, new_len) →
      ∃ comp_height ≤ MAX_MCU_HEIGHT,
        tailPadded rows comp_height c.row_stride original_len new_len) := by
  constructor
  · intro c maxV srcLen start_row rows h
    unfold buildCompRows at h
    dsimp only at h
    split_ifs at h with h1 h2 h3 h4 h5
    injection h with h
    subst h
    refine ⟨min (srcLen / c.row_stride - start_row * c.v_samp_factor / maxV)
      (DCTSIZE * c.v_samp_factor), Nat.not_lt.1 h5, ?_, ?_, ?_⟩
    · simp [compRowPtrs, MAX_MCU_HEIGHT]
    · intro ri hri
      have hri16 : ri < MAX_MCU_HEIGHT := lt_of_lt_of_le hri (Nat.not_lt.1 h5)
      refine ⟨(start_row * c.v_samp_factor / maxV + ri) * c.row_stride, ?_, Nat.zero_le _, ?_⟩
      · rw [compRowPtrs, List.get?_map, List.get?_range hri16, Option.map_some',
          if_pos hri]
      · have hBA : start_row * c.v_samp_factor / maxV ≤ srcLen / c.row_stride :=
          Nat.not_lt.1 h3
        have h6 : ri + 1 ≤ srcLen / c.row_stride - start_row * c.v_samp_factor / maxV :=
          le_trans (Nat.succ_le_of_lt hri) (min_le_left _ _)
        have hle : start_row * c.v_samp_factor / maxV + ri + 1 ≤ srcLen / c.row_stride :=
          calc start_row * c.v_samp_factor / maxV + ri + 1
              = start_row * c.v_samp_factor / maxV + (ri + 1) := by
                rw [Nat.add_assoc]
            _ ≤ start_row * c.v_samp_factor / maxV +
                (srcLen / c.row_stride - start_row * c.v_samp_factor / maxV) :=
                Nat.add_le_add_left h6 _
            _ = srcLen / c.row_stride := Nat.add_sub_cancel' hBA
        calc (start_row * c.v_samp_factor / maxV + ri) * c.row_stride + c.row_stride
            = (start_row * c.v_samp_factor / maxV + ri + 1) * c.row_stride := by
              rw [Nat.succ_mul]
          _ ≤ srcLen / c.row_stride * c.row_stride := Nat.mul_le_mul_right _ hle
          _ ≤ srcLen := Nat.div_mul_le_self _ _
    · intro ri hri hri16
      rw [compRowPtrs, List.get?_map, List.get?_range hri16, Option.map_some',
        if_neg (Nat.not_lt.2 hri)]
  · intro c original_len rows new_len h
    unfold buildDecompRows at h
    dsimp only at h
    split_ifs at h with h1
    simp only [Outcome.ok.injEq, Prod.mk.injEq] at h
    obtain ⟨rfl, rfl⟩ := h
    refine ⟨c.v_samp_factor * DCTSIZE, Nat.not_lt.1 h1, ?_, ?_, ?_⟩
    · simp [decompRowPtrs, MAX_MCU_HEIGHT]
    · intro ri hri
      have hri16 : ri < MAX_MCU_HEIGHT := lt_of_lt_of_le hri (Nat.not_lt.1 h1)
      refine ⟨original_len + ri * c.row_stride, ?_, Nat.le_add_right _ _, ?_⟩
      · rw [decompRowPtrs, List.get?_map, List.get?_range hri16, Option.map_some',
          if_pos hri]
      · calc original_len + ri * c.row_stride + c.row_stride
            = original_len + (ri + 1) * c.row_stride := by
              rw [Nat.succ_mul, Nat.add_assoc]
          _ ≤ original_len + c.v_samp_factor * DCTSIZE * c.row_stride :=
            Nat.add_le_add_left (Nat.mul_le_mul_right _ (Nat.succ_le_of_lt hri)) _
    · intro ri hri hri16
      rw [decompRowPtrs, List.get?_map, List.get?_range hri16, Option.map_some',
        if_neg (Nat.not_lt.2 hri)]

/-- Witness for C5: both builders at a one-component 4:4:4 layout with a
64-byte buffer of 8 rows of stride 8. -/
theorem C5_tail_only_padding_witness :
    (∃ comp_height ≤ MAX_MCU_HEIGHT,
      tailPadded (compRowPtrs ⟨1, 1, 8, 16⟩ 0 8) comp_height 8 0 64) ∧
    (∃ comp_height ≤ MAX_MCU_HEIGHT,
      tailPadded (decompRowPtrs ⟨1, 1, 8, 16⟩ 0 8) comp_height 8 0 64) :=
  ⟨C5_tail_only_padding.1 ⟨1, 1, 8, 16⟩ 1 64 0 _ (by decide),
   C5_tail_only_padding.2 ⟨1, 1, 8, 16⟩ 0 _ 64 (by decide)⟩

/-- Helper: the size-check loop of write_raw_data panics on Bitmap too small
whenever some component is paired with a buffer shorter than
row_stride * col_stride. -/
theorem checkSizes_panics :
    ∀ (comps : List CompInfo) (lens : List Nat),
      comps.length ≤ lens.length →
      (∃ p ∈ comps.zip lens, p.2 < p.1.row_stride * p.1.col_stride) →
      checkSizes comps lens = Outcome.panic PanicMsg.bitmapTooSmall := by
  intro comps
  induction comps with
  | nil =>
    intro lens _ hex
    simp at hex
  | cons c cs ih =>
    intro lens hlen hex
    cases lens with
    | nil => simp at hlen
    | cons l ls =>
      unfold checkSizes
      by_cases hv : l < c.row_stride * c.col_stride
      · rw [if_pos hv]
      · rw [if_neg hv]
        apply ih ls (by simpa using hlen)
        obtain ⟨p, hp, hlt⟩ := hex
        simp only [List.zip_cons_cons, List.mem_cons] at hp
        rcases hp with rfl | hp
        · exact absurd hlt hv
        · exact ⟨p, hp, hlt⟩

/-- C3 counterexample: the claim requires the number of supplied buffers to
match the configured component count, panicking on any mismatch before any
engine write. At this concrete input two buffers are supplied for one
configured component, yet write_raw_data makes its engine write call and
returns true instead of panicking. -/
theorem C3_counterexample_extra_buffer_accepted :
    ([64, 64] : List Nat).length ≠
      (⟨true, 1, [⟨1, 1, 8, 8⟩], 0, 8, 0, 0⟩ : CompressCinfo).comps.length ∧
    write_raw_data ⟨true, 1, [⟨1, 1, 8, 8⟩], 0, 8, 0, 0⟩ [64, 64] (fun _ => 8) =
      RunResult.ok 1 true := by
  exact ⟨by decide, by decide⟩

/-- C3 amended: write_raw_data panics before any engine write call when the
configured component count exceeds 4, when it exceeds the number of supplied
buffers (supplying extra buffers beyond the configured count is tolerated),
or when a configured component is paired with a buffer smaller than
row_stride * col_stride bytes. -/
theorem C3_amended_raw_write_preconditions :
    ∀ (cinfo : CompressCinfo) (image_src : List Nat) (engine : Nat → Nat),
      (MAX_COMPONENTS < cinfo.comps.length ∨
       image_src.length < cinfo.comps.length ∨
       ∃ p ∈ cinfo.comps.zip image_src, p.2 < p.1.row_stride * p.1.col_stride) →
      ∃ m, write_raw_data cinfo image_src engine = RunResult.panic 0 m := by
  intro cinfo src engine h
  unfold write_raw_data
  by_cases h1 : cinfo.raw_data_in = false
  · exact ⟨_, by rw [if_pos h1]⟩
  · rw [if_neg h1]
    by_cases h2 : MAX_MCU_HEIGHT < cinfo.max_v_samp_factor * DCTSIZE
    · exact ⟨_, by rw [if_pos h2]⟩
    · rw [if_neg h2]
      by_cases h3 : cinfo.max_v_samp_factor * DCTSIZE = 0
      · exact ⟨_, by rw [if_pos h3]⟩
      · rw [if_neg h3]
        by_cases h4 : MAX_COMPONENTS < cinfo.comps.length ∨
            src.length < cinfo.comps.length
        · exact ⟨_, by rw [if_pos h4]⟩
        · rw [if_neg h4]
          rw [not_or] at h4
          rcases h with h | h | h
          · exact absurd h h4.1
          · exact absurd h h4.2
          · rw [checkSizes_panics cinfo.comps src (Nat.not_lt.1 h4.2) h]
            exact ⟨PanicMsg.bitmapTooSmall, rfl⟩

/-- Witness for the amended C3: one configured component whose 64-byte
requirement is not met by its 10-byte buffer. -/
theorem C3_amended_raw_write_preconditions_witness :
    ∃ m, write_raw_data ⟨true, 1, [⟨1, 1, 8, 8⟩], 0, 8, 0, 0⟩ [10] (fun _ => 8) =
      RunResult.panic 0 m :=
  C3_amended_raw_write_preconditions ⟨true, 1, [⟨1, 1, 8, 8⟩], 0, 8, 0, 0⟩ [10]
    (fun _ => 8) (by decide)

/-- Helper: chunking an empty slice gives no chunks, whatever the fuel. -/
theorem chunkSizesGo_zero_len (sz fuel : Nat) : chunkSizesGo sz 0 fuel = [] := by
  cases fuel with
  | zero => rfl
  | succ fuel => simp [chunkSizesGo]

/-- Helper: cutting q * bw bytes into chunks of 16 * bw bytes and counting
bw-byte rows in each chunk is the same as cutting q rows into chunks of 16
rows, for any sufficient fuels. -/
theorem chunkSizesGo_map_rows (bw : Nat) (hbw : 0 < bw) :
    ∀ (fuel₁ q fuel₂ : Nat), q ≤ fuel₁ → q * bw ≤ fuel₂ →
      (chunkSizesGo (MAX_MCU_HEIGHT * bw) (q * bw) fuel₂).map
        (fun chunk => (chunk + bw - 1) / bw) = chunkSizesGo MAX_MCU_HEIGHT q fuel₁ := by
  have hdiv : ∀ a : Nat, (a * bw + bw - 1) / bw = a := by
    intro a
    have h1 : a * bw + bw - 1 = bw - 1 + bw * a := by
      rw [Nat.mul_comm a bw]
      omega
    rw [h1, Nat.add_mul_div_left _ _ hbw, Nat.div_eq_of_lt (Nat.sub_lt hbw Nat.one_pos),
      Nat.zero_add]
  intro fuel₁
  induction fuel₁ with
  | zero =>
    intro q fuel₂ hq _
    obtain rfl : q = 0 := Nat.le_zero.1 hq
    rw [Nat.zero_mul, chunkSizesGo_zero_len]
    rfl
  | succ fuel₁ ih =>
    intro q fuel₂ hq hf₂
    cases q with
    | zero =>
      rw [Nat.zero_mul, chunkSizesGo_zero_len]
      simp [chunkSizesGo]
    | succ q' =>
      have hqpos : 0 < q' + 1 := Nat.succ_pos _
      have hlenpos : 0 < (q' + 1) * bw := Nat.mul_pos hqpos hbw
      cases fuel₂ with
      | zero => omega
      | succ fuel₂ =>
        rw [chunkSizesGo, chunkSizesGo]
        rw [if_neg (Nat.pos_iff_ne_zero.1 hlenpos), if_neg (by omega : ¬ q' + 1 = 0)]
        by_cases hle : q' + 1 ≤ MAX_MCU_HEIGHT
        · rw [if_pos (Nat.mul_le_mul_right bw hle), if_pos hle]
          simp [hdiv]
        · rw [if_neg (fun hc => hle (Nat.le_of_mul_le_mul_right hc hbw)), if_neg hle]
          rw [List.map_cons, hdiv MAX_MCU_HEIGHT]
          have hM : MAX_MCU_HEIGHT = 16 := rfl
          have hle2 : (q' + 1 - MAX_MCU_HEIGHT) * bw + MAX_MCU_HEIGHT * bw = (q' + 1) * bw := by
            rw [← Nat.add_mul, Nat.sub_add_cancel (by omega)]
          have hg : 0 < MAX_MCU_HEIGHT * bw := Nat.mul_pos (by decide) hbw
          have hsub : (q' + 1) * bw - MAX_MCU_HEIGHT * bw = (q' + 1 - MAX_MCU_HEIGHT) * bw := by
            omega
          rw [hsub, ih (q' + 1 - MAX_MCU_HEIGHT) fuel₂ (by omega) (by omega)]

/-- C6 counterexample: with max_v_samp_factor 1 (so mcu_height = 8) and a
one-byte-per-row layout, the claim predicts batches of 8, 8 and 8 rows for a
24-row buffer, but write_scanlines builds batches of 16 and 8 rows: it chunks
by the constant MAX_MCU_HEIGHT, not by mcu_height. -/
theorem C6_counterexample_chunking_ignores_sampling :
    write_scanlines_batches ⟨false, 1, [], 0, 0, 1, 1⟩ 24 = Outcome.ok [16, 8] ∧
    claimedScanlineBatches ⟨false, 1, [], 0, 0, 1, 1⟩ 24 = [8, 8, 8] := by
  exact ⟨by decide, by decide⟩

/-- C6 amended: write_scanlines splits its input buffer strictly into chunks
of MAX_MCU_HEIGHT = 16 contiguous rows at a time, independent of the sampling
factors, with only the final chunk shorter when the row count does not divide
evenly; each chunk is submitted as one row-pointer batch. -/
theorem C6_amended_chunking_by_max_mcu_height :
    ∀ (cinfo : CompressCinfo) (q : Nat),
      cinfo.raw_data_in = false →
      cinfo.input_components ≠ 0 →
      cinfo.image_width ≠ 0 →
      write_scanlines_batches cinfo (q * (cinfo.image_width * cinfo.input_components)) =
        Outcome.ok (chunkSizes q MAX_MCU_HEIGHT) := by
  intro cinfo q hraw hcomp hw
  have hbw : 0 < cinfo.image_width * cinfo.input_components :=
    Nat.mul_pos (Nat.pos_iff_ne_zero.2 hw) (Nat.pos_iff_ne_zero.2 hcomp)
  unfold write_scanlines_batches
  rw [if_neg (by simp [hraw]), if_neg hcomp, if_neg hw]
  dsimp only
  unfold chunkSizes
  rw [if_neg (Nat.pos_iff_ne_zero.1 (Nat.mul_pos (by decide) hbw)),
    if_neg (by decide : ¬ MAX_MCU_HEIGHT = 0)]
  rw [chunkSizesGo_map_rows _ hbw q q _ le_rfl le_rfl]

/-- Witness for the amended C6: a 24-row buffer of one-byte rows splits into
a 16-row batch and an 8-row batch. -/
theorem C6_amended_chunking_by_max_mcu_height_witness :
    write_scanlines_batches ⟨false, 1, [], 0, 0, 1, 1⟩ (24 * (1 * 1)) =
      Outcome.ok (chunkSizes 24 MAX_MCU_HEIGHT) :=
  C6_amended_chunking_by_max_mcu_height ⟨false, 1, [], 0, 0, 1, 1⟩ 24 rfl
    (by decide) (by decide)

end MozJpeg
